import Mathlib

set_option maxRecDepth 4000

/-! Formal model of the magic-home-rs client (src/lib.rs), a TCP client for
LEDENET-style LED controllers. Bytes are modelled as natural numbers; the
machine truncations of the source (`as u8`, 64-bit accumulation) are explicit
reductions modulo 2 ^ 8 and 2 ^ 64. The TCP stream is modelled as explicit
state: a queue of bytes the peer will supply to reads, a log of every byte
handed to a write call, and scripted failure outcomes for write and read. -/

/-- Transport-level error, standing for std::io::Error. -/
structure IOErr where
  code : Nat
deriving Repr, DecidableEq

/-- Model of std::net::TcpStream as seen through the Read and Write traits. -/
structure TcpStream where
  readData : List Nat
  written : List Nat
  writeErr : Option IOErr
  readErr : Option IOErr
deriving Repr, DecidableEq

/-- One write call: on success the buffer is handed to the transport and
logged and the byte count returned; on a scripted failure the stream is
unchanged and the error is returned. -/
def TcpStream.write (s : TcpStream) (buf : List Nat) :
    Except IOErr Nat × TcpStream :=
  match s.writeErr with
  | some e => (.error e, s)
  | none => (.ok buf.length, { s with written := s.written ++ buf })

/-- One read call into a buffer of capacity n: on success it transfers up to
n bytes, possibly fewer when the peer supplies fewer (a short read); on a
scripted failure the stream is unchanged and the error is returned. -/
def TcpStream.read (s : TcpStream) (n : Nat) :
    Except IOErr (List Nat) × TcpStream :=
  match s.readErr with
  | some e => (.error e, s)
  | none => (.ok (s.readData.take n), { s with readData := s.readData.drop n })

/-- get_checksum: fold the bytes into an unsigned 64-bit accumulator
(additions reduced modulo 2 ^ 64), then truncate to the low 8 bits. -/
def get_checksum (buf : List Nat) : Nat :=
  (buf.foldl (fun a b => (a + b) % 2 ^ 64) 0) % 2 ^ 8

/-- get_state: push 0x81, 0x8A, 0x8B and the checksum of those three bytes
into the query buffer, write it, then perform one read with a
zero-initialised 14-byte buffer. Bytes the read does not fill keep their
zero initialiser, exactly as in the source, which ignores the read count. -/
def get_state (stream : TcpStream) : Except IOErr (List Nat) × TcpStream :=
  let query_buf : List Nat := []
  let query_buf := query_buf ++ [0x81]
  let query_buf := query_buf ++ [0x8A]
  let query_buf := query_buf ++ [0x8B]
  let query_buf := query_buf ++ [get_checksum query_buf]
  match stream.write query_buf with
  | (.error e, stream) => (.error e, stream)
  | (.ok _, stream) =>
    let feedback_buf : List Nat := List.replicate 14 0
    match stream.read feedback_buf.length with
    | (.error e, stream) => (.error e, stream)
    | (.ok chunk, stream) =>
      (.ok (chunk ++ feedback_buf.drop chunk.length), stream)

/-- Caller-facing device state (MagicHomeState). -/
structure MagicHomeState where
  is_enabled : Bool
  red : Nat
  green : Nat
  blue : Nat
deriving Repr, DecidableEq

/-- Error type of the session operations (MagicHomeActionError). -/
inductive MagicHomeActionError where
  | notConnected : MagicHomeActionError
  | ioError : IOErr → MagicHomeActionError
deriving Repr, DecidableEq

/-- The session: an optional connected stream (MagicHome). -/
structure MagicHome where
  stream : Option TcpStream
deriving Repr, DecidableEq

/-- MagicHome::new. -/
def MagicHome.new : MagicHome := { stream := none }

/-- MagicHome::is_connected. -/
def MagicHome.is_connected (m : MagicHome) : Bool :=
  m.stream.isSome

/-- MagicHome::connect: the TCP dial outcome is passed in as the value of
TcpStream::connect(addr). On success the liveness query round-trip of
get_state runs; only when it succeeds is the stream stored in the session. -/
def MagicHome.connect (m : MagicHome) (dial : Except IOErr TcpStream) :
    Except IOErr Unit × MagicHome :=
  match dial with
  | .error e => (.error e, m)
  | .ok stream =>
    match get_state stream with
    | (.error e, _) => (.error e, m)
    | (.ok _, stream) => (.ok (), { m with stream := some stream })

/-- MagicHome::state: NotConnected without a stream; otherwise run the
get_state round-trip and project bytes 2 (power), 6, 7, 8 (r, g, b). -/
def MagicHome.state (m : MagicHome) :
    Except MagicHomeActionError MagicHomeState × MagicHome :=
  match m.stream with
  | none => (.error .notConnected, m)
  | some stream =>
    match get_state stream with
    | (.error e, stream) => (.error (.ioError e), { m with stream := some stream })
    | (.ok st, stream) =>
      (.ok { is_enabled := st.getD 2 0 != 0x24
             red := st.getD 6 0
             green := st.getD 7 0
             blue := st.getD 8 0 },
       { m with stream := some stream })

/-- MagicHome::set_color: NotConnected without a stream; otherwise build
[0x31, r, g, b, 0x00, 0xF0, 0x0F], append the checksum of those seven
bytes, and write the 8-byte frame. The rgb argument models the [u8; 3]
array whose three cells the source pushes in index order. -/
def MagicHome.set_color (m : MagicHome) (r g b : Nat) :
    Except MagicHomeActionError Unit × MagicHome :=
  match m.stream with
  | none => (.error .notConnected, m)
  | some stream =>
    let buf : List Nat := [0x31, r, g, b, 0x00, 0xF0, 0x0F]
    let buf := buf ++ [get_checksum buf]
    match stream.write buf with
    | (.error e, stream) => (.error (.ioError e), { m with stream := some stream })
    | (.ok _, stream) => (.ok (), { m with stream := some stream })

/-- MagicHome::power: NotConnected without a stream; otherwise build
[0x71, power_byte, 0x0F] with power_byte 0x23 for on and 0x24 for off,
append the checksum of those three bytes, and write the 4-byte frame. -/
def MagicHome.power (m : MagicHome) (value : Bool) :
    Except MagicHomeActionError Unit × MagicHome :=
  match m.stream with
  | none => (.error .notConnected, m)
  | some stream =>
    let power_byte : Nat := if value then 0x23 else 0x24
    let buf : List Nat := [0x71, power_byte, 0x0F]
    let buf := buf ++ [get_checksum buf]
    match stream.write buf with
    | (.error e, stream) => (.error (.ioError e), { m with stream := some stream })
    | (.ok _, stream) => (.ok (), { m with stream := some stream })

/-- The bytes a session has handed to its transport so far. -/
def MagicHome.writtenLog (m : MagicHome) : List Nat :=
  match m.stream with
  | none => []
  | some s => s.written

/-- A frame whose final byte is the mod-256 sum of all bytes before it. -/
def checksummed (f : List Nat) : Prop :=
  f.getLast? = some (f.dropLast.sum % 256)

/-- Folding bytes with 64-bit wraparound and then truncating to 8 bits agrees
with the plain sum modulo 256, because 2 ^ 8 divides 2 ^ 64. -/
theorem checksum_fold_mod : ∀ (buf : List Nat) (a : Nat),
    (List.foldl (fun a b => (a + b) % 2 ^ 64) a buf) % 2 ^ 8 =
      (a + buf.sum) % 2 ^ 8 := by
  intro buf
  induction buf with
  | nil => intro a; simp
  | cons b bs ih =>
    intro a
    simp only [List.foldl_cons, List.sum_cons]
    rw [ih]
    calc ((a + b) % 2 ^ 64 + bs.sum) % 2 ^ 8
        = ((a + b) % 2 ^ 64 % 2 ^ 8 + bs.sum % 2 ^ 8) % 2 ^ 8 := by
          rw [Nat.add_mod]
      _ = ((a + b) % 2 ^ 8 + bs.sum % 2 ^ 8) % 2 ^ 8 := by
          rw [Nat.mod_mod_of_dvd _ (pow_dvd_pow 2 (by norm_num))]
      _ = (a + b + bs.sum) % 2 ^ 8 := by rw [← Nat.add_mod]
      _ = (a + (b + bs.sum)) % 2 ^ 8 := by rw [Nat.add_assoc]

/-- get_checksum computes the byte sum reduced modulo 256. -/
theorem get_checksum_eq_sum (buf : List Nat) :
    get_checksum buf = buf.sum % 256 := by
  unfold get_checksum
  rw [checksum_fold_mod]
  norm_num

/-- C1: get_checksum is a total, deterministic function of the byte list that
equals the byte sum truncated mod 256 (the 64-bit accumulation before the
8-bit truncation never changes the result since 256 divides 2 ^ 64), and it
takes the documented values on the three examples. -/
theorem get_checksum_spec :
    (∀ buf : List Nat, get_checksum buf = buf.sum % 256) ∧
    get_checksum [] = 0 ∧
    get_checksum [0xFF, 0xFF] = 0xFE ∧
    get_checksum [0x81, 0x8A, 0x8B] = 0x96 :=
  ⟨get_checksum_eq_sum, by decide, by decide, by decide⟩

/-- Appending the checksum of a payload yields a checksummed frame. -/
theorem checksummed_append (p : List Nat) :
    checksummed (p ++ [get_checksum p]) := by
  unfold checksummed
  rw [List.getLast?_concat, List.dropLast_concat, get_checksum_eq_sum]

/-- When the write call succeeds, get_state hands the transport exactly the
query payload followed by its checksum, whatever the read then does. -/
theorem get_state_written (s : TcpStream) (hw : s.writeErr = none) :
    ((get_state s).2).written =
      s.written ++ ([0x81, 0x8A, 0x8B] ++ [get_checksum [0x81, 0x8A, 0x8B]]) := by
  unfold get_state
  simp only [TcpStream.write, hw]
  cases h : s.readErr with
  | none => simp [TcpStream.read, h]
  | some e => simp [TcpStream.read, h]

/-- When both transport calls succeed and 14 bytes are available, get_state
returns them and leaves the stream with the query logged and the bytes
consumed. -/
theorem get_state_full (s : TcpStream) (hw : s.writeErr = none)
    (hr : s.readErr = none) (hlen : s.readData.length = 14) :
    get_state s = (.ok s.readData,
      { s with written := s.written ++ ([0x81, 0x8A, 0x8B] ++ [get_checksum [0x81, 0x8A, 0x8B]]), readData := [] }) := by
  unfold get_state
  simp only [TcpStream.write, hw]
  simp only [TcpStream.read, hr]
  have htake : s.readData.take 14 = s.readData := by
    rw [← hlen, List.take_length]
  have hdrop : s.readData.drop 14 = [] := by
    rw [← hlen, List.drop_length]
  simp [htake, hdrop, hlen]

/-- When the write call succeeds, set_color hands the transport exactly the
seven payload bytes followed by their checksum. -/
theorem set_color_written (s : TcpStream) (hw : s.writeErr = none)
    (r g b : Nat) :
    (((MagicHome.mk (some s)).set_color r g b).2).writtenLog =
      s.written ++ ([0x31, r, g, b, 0x00, 0xF0, 0x0F] ++
        [get_checksum [0x31, r, g, b, 0x00, 0xF0, 0x0F]]) := by
  simp only [MagicHome.set_color]
  simp only [TcpStream.write, hw]
  simp [MagicHome.writtenLog]

/-- When the write call succeeds, power hands the transport exactly the three
payload bytes followed by their checksum. -/
theorem power_written (s : TcpStream) (hw : s.writeErr = none) (v : Bool) :
    (((MagicHome.mk (some s)).power v).2).writtenLog =
      s.written ++ ([0x71, if v then 0x23 else 0x24, 0x0F] ++
        [get_checksum [0x71, if v then 0x23 else 0x24, 0x0F]]) := by
  simp only [MagicHome.power]
  simp only [TcpStream.write, hw]
  simp [MagicHome.writtenLog]

/-- A connected session whose transport supplies a full 14-byte reply without
errors returns the projection of bytes 2, 6, 7 and 8 of that reply. -/
theorem state_ok_of_full_read (data : List Nat) (hlen : data.length = 14)
    (s : TcpStream) (hw : s.writeErr = none) (hr : s.readErr = none)
    (hd : s.readData = data) :
    ((MagicHome.mk (some s)).state).1 =
      .ok ⟨data.getD 2 0 != 0x24, data.getD 6 0, data.getD 7 0,
        data.getD 8 0⟩ := by
  simp only [MagicHome.state]
  rw [get_state_full s hw hr (by rw [hd, hlen])]
  simp [hd]

/-- C2: for every r, g, b in 0..=255, the SetColor frame handed to the
transport by set_color is exactly the 8 bytes
[0x31, r, g, b, 0x00, 0xF0, 0x0F, c] with c the mod-256 sum of the
preceding 7 bytes. -/
theorem set_color_frame_spec (r g b : Nat) (hr : r ≤ 255) (hg : g ≤ 255)
    (hb : b ≤ 255) (s : TcpStream) (hw : s.writeErr = none) :
    (((MagicHome.mk (some s)).set_color r g b).2).writtenLog =
      s.written ++ [0x31, r, g, b, 0x00, 0xF0, 0x0F,
        [0x31, r, g, b, 0x00, 0xF0, 0x0F].sum % 256] := by
  rw [set_color_written s hw r g b, get_checksum_eq_sum]
  simp

/-- C2 witness at the documented example r = 0x10, g = 0x20, b = 0x30. -/
theorem set_color_frame_spec_witness :
    (((MagicHome.mk (some ⟨[], [], none, none⟩)).set_color 0x10 0x20 0x30).2).writtenLog =
      [] ++ [0x31, 0x10, 0x20, 0x30, 0x00, 0xF0, 0x0F,
        [0x31, 0x10, 0x20, 0x30, 0x00, 0xF0, 0x0F].sum % 256] :=
  set_color_frame_spec 0x10 0x20 0x30 (by norm_num) (by norm_num) (by norm_num)
    ⟨[], [], none, none⟩ rfl

/-- C3: the query frame handed to the transport is exactly
[0x81, 0x8A, 0x8B, 0x96], and 0x96 is the checksum of the 3-byte payload
alone (the checksum byte is not part of its own computation). -/
theorem query_frame_spec (s : TcpStream) (hw : s.writeErr = none) :
    ((get_state s).2).written = s.written ++ [0x81, 0x8A, 0x8B, 0x96] ∧
    get_checksum [0x81, 0x8A, 0x8B] = 0x96 := by
  have hc : get_checksum [0x81, 0x8A, 0x8B] = 0x96 := by decide
  constructor
  · rw [get_state_written s hw, hc]
    simp
  · exact hc

/-- C3 witness on a fresh error-free stream. -/
theorem query_frame_spec_witness :
    ((get_state ⟨[], [], none, none⟩).2).written = [] ++ [0x81, 0x8A, 0x8B, 0x96] ∧
    get_checksum [0x81, 0x8A, 0x8B] = 0x96 :=
  query_frame_spec ⟨[], [], none, none⟩ rfl

/-- C4 counterexample: on a fresh error-free stream the power-on frame the
code writes ends in checksum 0xA3 (= (0x71 + 0x23 + 0x0F) % 256), not in the
claimed 0xA7, and the power-off frame ends in 0xA4, not 0xA8. -/
theorem power_frame_counterexample :
    (((MagicHome.mk (some ⟨[], [], none, none⟩)).power true).2).writtenLog =
      [0x71, 0x23, 0x0F, 0xA3] ∧
    [0x71, 0x23, 0x0F, 0xA3] ≠ [0x71, 0x23, 0x0F, 0xA7] ∧
    (((MagicHome.mk (some ⟨[], [], none, none⟩)).power false).2).writtenLog =
      [0x71, 0x24, 0x0F, 0xA4] ∧
    [0x71, 0x24, 0x0F, 0xA4] ≠ [0x71, 0x24, 0x0F, 0xA8] := by
  refine ⟨by decide, by decide, by decide, by decide⟩

/-- C4 amended: the SetPower frame for on is [0x71, 0x23, 0x0F, 0xA3] and
for off is [0x71, 0x24, 0x0F, 0xA4] - the checksum bytes are the mod-256
sums 0xA3 and 0xA4 of the three payload bytes. -/
theorem power_frame_spec (s : TcpStream) (hw : s.writeErr = none) :
    (((MagicHome.mk (some s)).power true).2).writtenLog =
      s.written ++ [0x71, 0x23, 0x0F, 0xA3] ∧
    (((MagicHome.mk (some s)).power false).2).writtenLog =
      s.written ++ [0x71, 0x24, 0x0F, 0xA4] := by
  have h1 := power_written s hw true
  have h2 := power_written s hw false
  simp only [if_pos trivial, if_neg Bool.false_ne_true] at h1 h2
  constructor
  · rw [h1]
    simp [show get_checksum [0x71, 0x23, 0x0F] = 0xA3 from by decide]
  · rw [h2]
    simp [show get_checksum [0x71, 0x24, 0x0F] = 0xA4 from by decide]

/-- C4 witness on a fresh error-free stream. -/
theorem power_frame_spec_witness :
    (((MagicHome.mk (some ⟨[], [], none, none⟩)).power true).2).writtenLog =
      [] ++ [0x71, 0x23, 0x0F, 0xA3] ∧
    (((MagicHome.mk (some ⟨[], [], none, none⟩)).power false).2).writtenLog =
      [] ++ [0x71, 0x24, 0x0F, 0xA4] :=
  power_frame_spec ⟨[], [], none, none⟩ rfl

/-- C5: for every 14-byte reply delivered whole by the transport, state()
returns is_enabled = (byte 2 != 0x24) and red, green, blue = bytes 6, 7, 8. -/
theorem state_projection_spec (data : List Nat) (hlen : data.length = 14)
    (s : TcpStream) (hw : s.writeErr = none) (hr : s.readErr = none)
    (hd : s.readData = data) :
    ((MagicHome.mk (some s)).state).1 =
      .ok ⟨data.getD 2 0 != 0x24, data.getD 6 0, data.getD 7 0,
        data.getD 8 0⟩ :=
  state_ok_of_full_read data hlen s hw hr hd

/-- C5 witness on the documented reply
81 25 23 61 21 06 38 05 06 f9 01 00 0f 9d: enabled with rgb 38 05 06. -/
theorem state_projection_spec_witness :
    ((MagicHome.mk (some ⟨[0x81, 0x25, 0x23, 0x61, 0x21, 0x06, 0x38, 0x05,
        0x06, 0xF9, 0x01, 0x00, 0x0F, 0x9D], [], none, none⟩)).state).1 =
      .ok ⟨true, 0x38, 0x05, 0x06⟩ :=
  state_projection_spec
    [0x81, 0x25, 0x23, 0x61, 0x21, 0x06, 0x38, 0x05, 0x06, 0xF9, 0x01, 0x00, 0x0F, 0x9D]
    (by decide)
    ⟨[0x81, 0x25, 0x23, 0x61, 0x21, 0x06, 0x38, 0x05, 0x06, 0xF9, 0x01, 0x00, 0x0F, 0x9D],
      [], none, none⟩ rfl rfl rfl

/-- C6: each frame the implementation writes - the query frame of get_state,
the SetColor frame and the SetPower frame - ends in a byte equal to the
mod-256 sum of all bytes before it in that frame. -/
theorem frames_checksummed_spec :
    (∀ s : TcpStream, s.writeErr = none →
      checksummed (((get_state s).2).written.drop s.written.length)) ∧
    (∀ (s : TcpStream) (r g b : Nat), s.writeErr = none →
      checksummed ((((MagicHome.mk (some s)).set_color r g b).2).writtenLog.drop
        s.written.length)) ∧
    (∀ (s : TcpStream) (v : Bool), s.writeErr = none →
      checksummed ((((MagicHome.mk (some s)).power v).2).writtenLog.drop
        s.written.length)) := by
  refine ⟨fun s hw => ?_, fun s r g b hw => ?_, fun s v hw => ?_⟩
  · rw [get_state_written s hw, List.drop_left]
    exact checksummed_append _
  · rw [set_color_written s hw r g b, List.drop_left]
    exact checksummed_append _
  · rw [power_written s hw v, List.drop_left]
    exact checksummed_append _

/-- C6 witness: all three frames on a fresh error-free stream. -/
theorem frames_checksummed_spec_witness :
    checksummed (((get_state ⟨[], [], none, none⟩).2).written.drop
      (([] : List Nat).length)) ∧
    checksummed ((((MagicHome.mk (some ⟨[], [], none, none⟩)).set_color 1 2 3).2).writtenLog.drop
      (([] : List Nat).length)) ∧
    checksummed ((((MagicHome.mk (some ⟨[], [], none, none⟩)).power true).2).writtenLog.drop
      (([] : List Nat).length)) :=
  ⟨frames_checksummed_spec.1 ⟨[], [], none, none⟩ rfl,
   frames_checksummed_spec.2.1 ⟨[], [], none, none⟩ 1 2 3 rfl,
   frames_checksummed_spec.2.2 ⟨[], [], none, none⟩ true rfl⟩

/-- C7: on a session with no stored stream - a session that never completed a
successful connect, including after a failed connect, which leaves no stream
behind - state, set_color and power all return NotConnected and leave the
session (hence any transport log) untouched. -/
theorem not_connected_spec (m : MagicHome) (h : m.stream = none) :
    ((m.state).1 = .error .notConnected ∧ (m.state).2 = m) ∧
    (∀ r g b : Nat, (m.set_color r g b).1 = .error .notConnected ∧
      (m.set_color r g b).2 = m) ∧
    (∀ v : Bool, (m.power v).1 = .error .notConnected ∧ (m.power v).2 = m) ∧
    (∀ (dial : Except IOErr TcpStream) (e : IOErr),
      (m.connect dial).1 = .error e → ((m.connect dial).2).stream = none) := by
  refine ⟨?_, fun r g b => ?_, fun v => ?_, fun dial e he => ?_⟩
  · simp [MagicHome.state, h]
  · simp [MagicHome.set_color, h]
  · simp [MagicHome.power, h]
  · cases dial with
    | error e2 => simpa [MagicHome.connect] using h
    | ok stream =>
      rcases hq : get_state stream with ⟨res, s2⟩
      cases res with
      | error e2 => simpa [MagicHome.connect, hq] using h
      | ok st => simp [MagicHome.connect, hq] at he

/-- C7 witness: a fresh session rejects state() without touching anything. -/
theorem not_connected_spec_witness :
    (MagicHome.new.state).1 = .error .notConnected ∧
      (MagicHome.new.state).2 = MagicHome.new :=
  (not_connected_spec MagicHome.new rfl).1

/-- C8: a failed connect returns the session exactly as it was (a fresh
session stays Disconnected, nothing partial is kept), and a failed state,
set_color or power call leaves is_connected unchanged. -/
theorem no_failure_mutation_spec :
    (∀ (m : MagicHome) (dial : Except IOErr TcpStream) (e : IOErr),
      (m.connect dial).1 = .error e → (m.connect dial).2 = m) ∧
    (∀ (m : MagicHome) (e : MagicHomeActionError),
      (m.state).1 = .error e → ((m.state).2).is_connected = m.is_connected) ∧
    (∀ (m : MagicHome) (r g b : Nat) (e : MagicHomeActionError),
      (m.set_color r g b).1 = .error e →
        ((m.set_color r g b).2).is_connected = m.is_connected) ∧
    (∀ (m : MagicHome) (v : Bool) (e : MagicHomeActionError),
      (m.power v).1 = .error e →
        ((m.power v).2).is_connected = m.is_connected) := by
  refine ⟨fun m dial e he => ?_, fun m e he => ?_, fun m r g b e he => ?_,
    fun m v e he => ?_⟩
  · cases dial with
    | error e2 => simp [MagicHome.connect]
    | ok stream =>
      rcases hq : get_state stream with ⟨res, s2⟩
      cases res with
      | error e2 => simp [MagicHome.connect, hq]
      | ok st => simp [MagicHome.connect, hq] at he
  · cases hm : m.stream with
    | none => simp [MagicHome.state, hm]
    | some s =>
      rcases hq : get_state s with ⟨res, s2⟩
      cases res with
      | error e2 => simp [MagicHome.state, hm, hq, MagicHome.is_connected]
      | ok st => simp [MagicHome.state, hm, hq, MagicHome.is_connected]
  · cases hm : m.stream with
    | none => simp [MagicHome.set_color, hm]
    | some s =>
      cases hw : s.writeErr with
      | none =>
        simp [MagicHome.set_color, hm, TcpStream.write, hw,
          MagicHome.is_connected]
      | some e2 =>
        simp [MagicHome.set_color, hm, TcpStream.write, hw,
          MagicHome.is_connected]
  · cases hm : m.stream with
    | none => simp [MagicHome.power, hm]
    | some s =>
      cases hw : s.writeErr with
      | none =>
        simp [MagicHome.power, hm, TcpStream.write, hw,
          MagicHome.is_connected]
      | some e2 =>
        simp [MagicHome.power, hm, TcpStream.write, hw,
          MagicHome.is_connected]

/-- C8 witness: a failed dial leaves a fresh session unchanged, and a failed
state() call (here: NotConnected) leaves is_connected unchanged. -/
theorem no_failure_mutation_spec_witness :
    (MagicHome.new.connect (.error ⟨7⟩)).2 = MagicHome.new ∧
    ((MagicHome.new.state).2).is_connected = MagicHome.new.is_connected :=
  ⟨no_failure_mutation_spec.1 MagicHome.new (.error ⟨7⟩) ⟨7⟩ rfl,
   no_failure_mutation_spec.2.1 MagicHome.new .notConnected rfl⟩

/-- C9: the code at the failing input of the claim. A connected session whose
error-free transport supplies only one byte (0x81) still succeeds: the single
read call transfers 1 byte, the buffer stays zero elsewhere, and state()
returns a device state decoded from the zero-padded buffer instead of
failing with an Io error as the claim requires. -/
theorem short_read_accepted :
    ((MagicHome.mk (some ⟨[0x81], [], none, none⟩)).state).1 =
      .ok ⟨true, 0x00, 0x00, 0x00⟩ := rfl

/-- C10: decoding is total and unvalidated - for every 14-byte reply content,
checksum-consistent or not, state() on a connected session with an error-free
transport succeeds with the projected bytes; and on any connected session the
only error state, set_color or power can return is the Io variant, never
NotConnected. -/
theorem state_total_decode_spec :
    (∀ (data : List Nat) (s : TcpStream), data.length = 14 →
      s.writeErr = none → s.readErr = none → s.readData = data →
      ((MagicHome.mk (some s)).state).1 =
        .ok ⟨data.getD 2 0 != 0x24, data.getD 6 0, data.getD 7 0,
          data.getD 8 0⟩) ∧
    (∀ (s : TcpStream) (e : MagicHomeActionError),
      ((MagicHome.mk (some s)).state).1 = .error e → e ≠ .notConnected) ∧
    (∀ (s : TcpStream) (r g b : Nat) (e : MagicHomeActionError),
      ((MagicHome.mk (some s)).set_color r g b).1 = .error e →
        e ≠ .notConnected) ∧
    (∀ (s : TcpStream) (v : Bool) (e : MagicHomeActionError),
      ((MagicHome.mk (some s)).power v).1 = .error e →
        e ≠ .notConnected) := by
  refine ⟨fun data s h1 h2 h3 h4 => state_ok_of_full_read data h1 s h2 h3 h4,
    fun s e he => ?_, fun s r g b e he => ?_, fun s v e he => ?_⟩
  · rcases hq : get_state s with ⟨res, s2⟩
    cases res with
    | error e2 =>
      simp only [MagicHome.state, hq] at he
      injection he with h2
      rw [← h2]
      simp
    | ok st => simp [MagicHome.state, hq] at he
  · cases hw : s.writeErr with
    | none => simp [MagicHome.set_color, TcpStream.write, hw] at he
    | some e2 =>
      simp only [MagicHome.set_color, TcpStream.write, hw] at he
      injection he with h2
      rw [← h2]
      simp
  · cases hw : s.writeErr with
    | none => simp [MagicHome.power, TcpStream.write, hw] at he
    | some e2 =>
      simp only [MagicHome.power, TcpStream.write, hw] at he
      injection he with h2
      rw [← h2]
      simp

/-- C10 witness: a reply of fourteen 0x01 bytes, whose final byte 0x01 does
not match the payload checksum 13, is still decoded successfully. -/
theorem state_total_decode_spec_witness :
    ((MagicHome.mk (some ⟨List.replicate 14 1, [], none, none⟩)).state).1 =
      .ok ⟨true, 1, 1, 1⟩ :=
  state_total_decode_spec.1 (List.replicate 14 1)
    ⟨List.replicate 14 1, [], none, none⟩ rfl rfl rfl rfl
